import Mathlib

/-!
Shallow embedding of the zephyr-hispec-mtc thermal-controller core
(src/lib/coo_commons/pid.c, src/lib/sensors/sensor_manager.c,
src/lib/heaters/heater_manager.c, src/lib/config/config.c,
src/lib/control/control_loop.c).

C `float` values are modelled as exact rationals (ℚ); machine floats are
idealized.  External collaborators (ADC drivers, voltage regulators,
timestamps, logging, mutexes) are outside the model: sensor acquisition is
an environment `List (Option ℚ)` (one slot per configured sensor, `none`
meaning the read failed), and actuator/regulator I/O results do not feed
back into the cached state or return codes, exactly as in the C code.
String ids are Lean `String`s (the C fixed-size char buffers).
-/

namespace MTC

/-! ## PID controller (src/lib/coo_commons/pid.c) -/

/-- `struct coo_pid` from include/coo_commons/pid.h. -/
structure CooPid where
  kp : ℚ := 0
  ki : ℚ := 0
  kd : ℚ := 0
  integral : ℚ := 0
  prev_error : ℚ := 0
  output_min : ℚ := 0
  output_max : ℚ := 0
  integral_min : ℚ := 0
  integral_max : ℚ := 0
  deriving Repr, DecidableEq

instance : Inhabited CooPid := ⟨{}⟩

/-- `coo_pid_init`: zero the state, set gains and output limits; integral
limits default to the output limits. -/
def coo_pid_init (kp ki kd output_min output_max : ℚ) : CooPid :=
  { kp := kp, ki := ki, kd := kd
    integral := 0, prev_error := 0
    output_min := output_min, output_max := output_max
    integral_min := output_min, integral_max := output_max }

/-- `coo_pid_reset`: clear integral and previous error. -/
def coo_pid_reset (pid : CooPid) : CooPid :=
  { pid with integral := 0, prev_error := 0 }

/-- `coo_pid_set_gains`: hot-swap gains, keep history. -/
def coo_pid_set_gains (pid : CooPid) (kp ki kd : ℚ) : CooPid :=
  { pid with kp := kp, ki := ki, kd := kd }

/-- `coo_pid_update`: returns (output, updated state). -/
def coo_pid_update (pid : CooPid) (setpoint measured dt : ℚ) : ℚ × CooPid :=
  let error := setpoint - measured
  let p_term := pid.kp * error
  let integral0 := pid.integral + error * dt
  let integral :=
    if integral0 > pid.integral_max then pid.integral_max
    else if integral0 < pid.integral_min then pid.integral_min
    else integral0
  let i_term := pid.ki * integral
  let derivative := if dt > 0 then (error - pid.prev_error) / dt else 0
  let d_term := pid.kd * derivative
  let output0 := p_term + i_term + d_term
  let output :=
    if output0 > pid.output_max then pid.output_max
    else if output0 < pid.output_min then pid.output_min
    else output0
  (output, { pid with integral := integral, prev_error := error })

/-! ## Sensor registry (src/lib/sensors/sensor_manager.c)

The C module keeps `config_ptr->sensors[i]` (static config) and
`sensor_cache[i]` (runtime cache) as two arrays indexed identically, with
`sensor_cache[i].id` copied from the config at init.  We model one list of
slots carrying both the config fields and the cache fields of index `i`. -/

/-- `sensor_status_t` from sensor_manager.h. -/
inductive SensorStatus where
  | ok | notReady | readError | outOfRange | disconnected
  deriving Repr, DecidableEq

/-- One sensor: config fields (`id`, `enabled`) plus its cache slot
(`temperature_kelvin`, `status`, `valid`).  Conversion parameters and the
ADC binding are external collaborators and are not modelled; the
environment hands `read_all` the converted kelvin value directly. -/
structure SensorSlot where
  id : String
  enabled : Bool := true
  temperature_kelvin : ℚ := 0
  status : SensorStatus := SensorStatus.ok
  valid : Bool := false
  deriving Repr, DecidableEq

/-- Body of `sensor_manager_read_all`: walk the sensor table in index
order; a disabled sensor is skipped; an enabled sensor consumes its slot
of the acquisition environment (`some t` = successful read converted to
kelvin, `none` = `adc_read_dt` failure or no ADC bound).  Returns the new
cache and the error counter. -/
def read_all_go : List SensorSlot → List (Option ℚ) → List SensorSlot × Nat
  | [], _ => ([], 0)
  | s :: rest, env =>
    let r := read_all_go rest env.tail
    if s.enabled then
      match env.headD none with
      | some t =>
          ({ s with temperature_kelvin := t, status := SensorStatus.ok,
                    valid := true } :: r.1, r.2)
      | none =>
          ({ s with status := SensorStatus.readError, valid := false } :: r.1,
           r.2 + 1)
    else (s :: r.1, r.2)

/-- `sensor_manager_read_all`: returns `(errors > 0) ? -errors : 0`. -/
def sensor_manager_read_all (slots : List SensorSlot) (env : List (Option ℚ)) :
    List SensorSlot × Int :=
  let r := read_all_go slots env
  (r.1, if r.2 > 0 then -(r.2 : Int) else 0)

/-- Linear scan of the cache for the first slot with a matching id
(the `strcmp` search loops in sensor_manager.c). -/
def sm_find : List SensorSlot → String → Option SensorSlot
  | [], _ => none
  | s :: rest, id => if s.id = id then some s else sm_find rest id

/-- `sensor_manager_get_average`: fold over the requested ids, summing
the cached temperature and counting each id that resolves to a currently
valid slot. -/
def sm_avg_fold (slots : List SensorSlot) (ids : List String) : ℚ × Nat :=
  ids.foldl
    (fun acc id =>
      match sm_find slots id with
      | some s => if s.valid then (acc.1 + s.temperature_kelvin, acc.2 + 1) else acc
      | none => acc)
    (0, 0)

/-- `sensor_manager_get_average`: `-1` for an empty id list (the C
`num_sensors_to_avg <= 0` / NULL guard), `-2` when no listed id has a
valid reading, otherwise the arithmetic mean of the valid ones. -/
def sensor_manager_get_average (slots : List SensorSlot) (ids : List String) :
    Except Int ℚ :=
  if ids.length ≤ 0 then Except.error (-1)
  else
    let r := sm_avg_fold slots ids
    if r.2 = 0 then Except.error (-2)
    else Except.ok (r.1 / (r.2 : ℚ))

/-- Specification-side description of the valid subset: the cached
temperatures of exactly those listed ids whose cache entry is valid. -/
def listedValidTemps (slots : List SensorSlot) (ids : List String) : List ℚ :=
  ids.filterMap (fun id =>
    match sm_find slots id with
    | some s => if s.valid then some s.temperature_kelvin else none
    | none => none)

/-- Specification-side count of failed reads of enabled sensors for a
given acquisition environment. -/
def readFailCount : List SensorSlot → List (Option ℚ) → Nat
  | [], _ => 0
  | s :: rest, env =>
    (if s.enabled ∧ env.headD none = none then 1 else 0) + readFailCount rest env.tail

/-! ## Heater registry (src/lib/heaters/heater_manager.c) -/

/-- `heater_status_t` from heater_manager.h. -/
inductive HeaterStatus where
  | ok | notReady | error | disabled | overLimit
  deriving Repr, DecidableEq

/-- `heater_type_t` from config.h. -/
inductive HeaterType where
  | lowPower | highPower
  deriving Repr, DecidableEq

/-- One entry of the `heater_state` table.  `regulator_present` models
`regulator_dev != NULL`; the regulator device itself (voltage math,
enable/disable calls) is the external actuator boundary and its results
never reach the cached state or the return codes in the C code. -/
structure HeaterEntry where
  id : String
  power_percent : ℚ := 0
  max_power_watts : ℚ := 0
  resistance_ohms : ℚ := 0
  status : HeaterStatus := HeaterStatus.ok
  enabled : Bool := true
  htype : HeaterType := HeaterType.lowPower
  regulator_present : Bool := false
  deriving Repr, DecidableEq

/-- Heater entry of `thermal_config_t` (config.h / config.c), with the
external facts `heater_manager_init` samples about the regulator device:
whether one was provided and whether `device_is_ready` held. -/
structure HeaterConfigC where
  id : String
  htype : HeaterType := HeaterType.lowPower
  max_power_w : ℚ := 0
  resistance_ohms : ℚ := 0
  enabled : Bool := true
  regulator_present : Bool := false
  regulator_ready : Bool := false
  deriving Repr, DecidableEq

/-- Linear scan for the first heater entry whose id matches. -/
def hm_find : List HeaterEntry → String → Option HeaterEntry
  | [], _ => none
  | e :: rest, id => if e.id = id then some e else hm_find rest id

/-- Body of `heater_manager_set_power` after the clamp: scan for the first
matching id; `-2` if not found; `-3` if the heater is disabled (no store);
otherwise store the percent and, on the high-power path with a bound
regulator whose status is ERROR, return `-4` (the store has already
happened). -/
def hm_set_power_go : List HeaterEntry → String → ℚ → List HeaterEntry × Int
  | [], _, _ => ([], -2)
  | e :: rest, id, p =>
    if e.id = id then
      if ¬e.enabled then (e :: rest, -3)
      else
        let e' := { e with power_percent := p }
        if e.htype = HeaterType.highPower ∧ e.regulator_present ∧
            e.status = HeaterStatus.error then
          (e' :: rest, -4)
        else (e' :: rest, 0)
    else
      let r := hm_set_power_go rest id p
      (e :: r.1, r.2)

/-- `heater_manager_set_power`: clamp the requested percent to [0,100]
before the table lookup, then run the scan. -/
def heater_manager_set_power (hs : List HeaterEntry) (heater_id : String)
    (power_percent : ℚ) : List HeaterEntry × Int :=
  let p := if power_percent < 0 then 0 else power_percent
  let p := if p > 100 then 100 else p
  hm_set_power_go hs heater_id p

/-- `heater_manager_init`: build the heater table from the config (error
`-2` if it exceeds `MAX_MANAGED_HEATERS = 16`), then sweep every heater to
a safe off state through `heater_manager_set_power(id, 0)`, ignoring the
per-heater results. -/
def heater_manager_init (cfgs : List HeaterConfigC) : Except Int (List HeaterEntry) :=
  if cfgs.length > 16 then Except.error (-2)
  else
    let entries : List HeaterEntry := cfgs.map (fun c =>
      let st := if c.enabled then HeaterStatus.ok else HeaterStatus.disabled
      { id := c.id
        power_percent := 0
        max_power_watts := c.max_power_w
        resistance_ohms := c.resistance_ohms
        htype := c.htype
        enabled := c.enabled
        status :=
          if c.htype = HeaterType.highPower ∧ ¬(c.regulator_present ∧ c.regulator_ready) then
            HeaterStatus.error
          else st
        regulator_present :=
          if c.htype = HeaterType.highPower then c.regulator_present else false })
    Except.ok (entries.foldl
      (fun hs e => (heater_manager_set_power hs e.id 0).1)
      entries)

/-- The capacity loop at the top of `heater_manager_distribute_power`:
total available max power over the listed ids, an unresolvable id
contributing nothing. -/
def dp_capacity (hs : List HeaterEntry) (ids : List String) : ℚ :=
  ids.foldl
    (fun acc id =>
      match hm_find hs id with
      | some e => acc + e.max_power_watts
      | none => acc) 0

/-- One iteration of the distribution loop of
`heater_manager_distribute_power`: look the id up (in the live table),
compute its proportional share and percent-of-own-maximum, and call
`set_power`, discarding its result; an unresolvable id is skipped. -/
def dp_apply (total_max_power t : ℚ) (hs : List HeaterEntry) (id : String) :
    List HeaterEntry :=
  match hm_find hs id with
  | some e =>
      let fraction := e.max_power_watts / total_max_power
      let heater_power := t * fraction
      let power_percent := heater_power / e.max_power_watts * 100
      (heater_manager_set_power hs id power_percent).1
  | none => hs

/-- `heater_manager_distribute_power`: `-1` on an empty set, `-2` when the
summed capacity of the listed (and resolvable) heaters is not positive;
otherwise clamp the requested total to [0, capacity] and command each
resolvable listed heater to its proportional share, discarding every
`set_power` result, and return 0. -/
def heater_manager_distribute_power (hs : List HeaterEntry) (ids : List String)
    (total_power_watts : ℚ) : List HeaterEntry × Int :=
  if ids.length ≤ 0 then (hs, -1)
  else
    let total_max_power := dp_capacity hs ids
    if total_max_power ≤ 0 then (hs, -2)
    else
      let t := if total_power_watts > total_max_power then total_max_power
               else total_power_watts
      let t := if t < 0 then 0 else t
      (ids.foldl (dp_apply total_max_power t) hs, 0)

/-- `heater_manager_emergency_stop`: unconditionally zero every entry's
commanded percent and return 0. -/
def heater_manager_emergency_stop (hs : List HeaterEntry) : List HeaterEntry × Int :=
  (hs.map (fun e => { e with power_percent := 0 }), 0)

/-! ## Configuration model (src/lib/config/config.h, config.c) -/

/-- `sensor_config_t` restricted to the fields the validated core reads
(`id`, `enabled`); conversion parameters belong to the driver boundary. -/
structure SensorConfigC where
  id : String
  enabled : Bool := true
  deriving Repr, DecidableEq

/-- `error_condition_t` from config.h. -/
inductive ErrorCondition where
  | stop | alarm | ignoreInvalidSensors | continueLastGood
  deriving Repr, DecidableEq

/-- `control_algo_t` from config.h. -/
inductive ControlAlgo where
  | pid | onOff | powerLevel
  deriving Repr, DecidableEq

/-- `control_loop_config_t` from config.h.  An empty `follows_loop_id`
stands for the C empty string (not following). -/
structure LoopConfigC where
  id : String
  sensor_ids : List String := []
  heater_ids : List String := []
  default_target_temperature : ℚ := 0
  default_state_on : Bool := true
  control_algorithm : ControlAlgo := ControlAlgo.pid
  p_gain : ℚ := 0
  i_gain : ℚ := 0
  d_gain : ℚ := 0
  error_condition : ErrorCondition := ErrorCondition.stop
  threshold_for_invalid_sensors : ℚ := 0
  alarm_min_temp : ℚ := 0
  alarm_max_temp : ℚ := 0
  valid_setpoint_range_min : ℚ := 0
  valid_setpoint_range_max : ℚ := 0
  setpoint_change_rate_limit : ℚ := 0
  heater_power_limit_min : ℚ := 0
  heater_power_limit_max : ℚ := 0
  follows_loop_id : String := ""
  follows_loop_scalar : ℚ := 1
  enabled : Bool := true
  deriving Repr, DecidableEq

/-- `thermal_config_t` (the table sizes are the list lengths). -/
structure ThermalConfig where
  sensors : List SensorConfigC := []
  heaters : List HeaterConfigC := []
  control_loops : List LoopConfigC := []
  deriving Repr, DecidableEq

def MAX_SENSORS : Nat := 16
def MAX_HEATERS : Nat := 16
def MAX_CONTROL_LOOPS : Nat := 8

/-- Per-loop part of `config_validate`: loops are scanned in order, a
disabled loop is skipped entirely, and the first defect determines the
return code (`-5` unresolved sensor id, `-6` unresolved heater id, `-7`
non-empty `follows_loop_id` equal to the loop's own id). -/
def config_validate_loops (c : ThermalConfig) : List LoopConfigC → Int
  | [] => 0
  | loop :: rest =>
    if ¬loop.enabled then config_validate_loops c rest
    else if ¬loop.sensor_ids.all (fun sid => c.sensors.any (fun s => s.id = sid)) then -5
    else if ¬loop.heater_ids.all (fun hid => c.heaters.any (fun h => h.id = hid)) then -6
    else if loop.follows_loop_id ≠ "" ∧ loop.follows_loop_id = loop.id then -7
    else config_validate_loops c rest

/-- `config_validate`: count checks against the static maxima, then the
per-loop reference and self-follow checks. -/
def config_validate (c : ThermalConfig) : Int :=
  if c.sensors.length > MAX_SENSORS then -2
  else if c.heaters.length > MAX_HEATERS then -3
  else if c.control_loops.length > MAX_CONTROL_LOOPS then -4
  else config_validate_loops c c.control_loops

/-! ## Control loop engine (src/lib/control/control_loop.c) -/

/-- `loop_status_t` from control_loop.h. -/
inductive LoopStatus where
  | ok | disabled | sensorError | alarm | notInitialized
  deriving Repr, DecidableEq

/-- One entry of the `loop_state` table. -/
structure LoopRT where
  id : String
  pid : CooPid := {}
  sensor_ids : List String := []
  heater_ids : List String := []
  target_temp_kelvin : ℚ := 0
  current_setpoint : ℚ := 0
  alarm_min_temp : ℚ := 0
  alarm_max_temp : ℚ := 0
  power_limit_min : ℚ := 0
  power_limit_max : ℚ := 0
  follows_loop_id : String := ""
  follows_scalar : ℚ := 0
  enabled : Bool := false
  suspended : Bool := false
  status : LoopStatus := LoopStatus.ok
  deriving Repr, DecidableEq

instance : Inhabited LoopRT := ⟨{ id := "" }⟩

/-- `control_loop_init`: build a `loop_state` entry per configured loop
(error `-2` past `MAX_CONTROL_LOOPS`); `enabled = cfg.enabled &&
cfg.default_state_on`; both the target and the working setpoint start at
the configured default target; the PID is constructed from the gains and
the heater power limits only for the PID algorithm (the `loop_state`
array is static, so a non-PID loop keeps a zeroed PID). -/
def control_loop_init (config : ThermalConfig) : Except Int (List LoopRT) :=
  if config.control_loops.length > MAX_CONTROL_LOOPS then Except.error (-2)
  else
    Except.ok (config.control_loops.map (fun cfg => show LoopRT from
      { id := cfg.id
        enabled := cfg.enabled && cfg.default_state_on
        suspended := false
        status := LoopStatus.ok
        sensor_ids := cfg.sensor_ids
        heater_ids := cfg.heater_ids
        target_temp_kelvin := cfg.default_target_temperature
        current_setpoint := cfg.default_target_temperature
        alarm_min_temp := cfg.alarm_min_temp
        alarm_max_temp := cfg.alarm_max_temp
        power_limit_min := cfg.heater_power_limit_min
        power_limit_max := cfg.heater_power_limit_max
        follows_loop_id := cfg.follows_loop_id
        follows_scalar := cfg.follows_loop_scalar
        pid :=
          if cfg.control_algorithm = ControlAlgo.pid then
            coo_pid_init cfg.p_gain cfg.i_gain cfg.d_gain
              cfg.heater_power_limit_min cfg.heater_power_limit_max
          else {} }))

/-- Linear scan of `loop_state` for the first entry with a matching id. -/
def cl_find : List LoopRT → String → Option LoopRT
  | [], _ => none
  | l :: rest, id => if l.id = id then some l else cl_find rest id

/-- The engine state that one control tick reads and writes: the loop
table and the heater table; the sensor cache is only read. -/
structure EngineState where
  loops : List LoopRT
  heaters : List HeaterEntry
  deriving Repr, DecidableEq

/-- One iteration of the `for (i …)` body of `control_loop_update_all`,
acting on loop index `i`.  Faithful points worth noting against the C:
the alarm branch assigns `LOOP_STATUS_ALARM` mid-body but the body ends
with the unconditional `loop_state[i].status = LOOP_STATUS_OK`, so the
only status that survives an iteration that got past the sensor read is
OK; the setpoint is taken from (and written back to) `current_setpoint`,
and the followed loop is looked up in the live, partially-updated table. -/
def update_one (cache : List SensorSlot) (dt : ℚ)
    (acc : EngineState × Nat) (i : Nat) : EngineState × Nat :=
  let st := acc.1
  let errors := acc.2
  let l := st.loops.getD i default
  if ¬l.enabled ∨ l.suspended then acc
  else
    match sensor_manager_get_average cache l.sensor_ids with
    | Except.error _ =>
        ({ st with loops := st.loops.set i { l with status := LoopStatus.sensorError } },
         errors + 1)
    | Except.ok measured =>
        let alarmed := measured < l.alarm_min_temp ∨ measured > l.alarm_max_temp
        let l₁ := if alarmed then { l with status := LoopStatus.alarm } else l
        let errors := if alarmed then errors + 1 else errors
        let setpoint :=
          if l₁.follows_loop_id ≠ "" then
            match cl_find st.loops l₁.follows_loop_id with
            | some followed => followed.current_setpoint * l₁.follows_scalar
            | none => l₁.current_setpoint
          else l₁.current_setpoint
        let l₂ := { l₁ with current_setpoint := setpoint }
        let r := coo_pid_update l₂.pid setpoint measured dt
        let l₃ := { l₂ with pid := r.2 }
        let h := heater_manager_distribute_power st.heaters l₃.heater_ids r.1
        let errors := if h.2 ≠ 0 then errors + 1 else errors
        let l₄ := { l₃ with status := LoopStatus.ok }
        ({ loops := st.loops.set i l₄, heaters := h.1 }, errors)

/-- Body of `control_loop_update_all`: run the per-loop scan over every
index and keep the raw error counter. -/
def control_loop_update_all_core (st : EngineState) (cache : List SensorSlot)
    (dt : ℚ) : EngineState × Nat :=
  (List.range st.loops.length).foldl (update_one cache dt) (st, 0)

/-- `control_loop_update_all`: returns `(errors > 0) ? -errors : 0`. -/
def control_loop_update_all (st : EngineState) (cache : List SensorSlot)
    (dt : ℚ) : EngineState × Int :=
  let r := control_loop_update_all_core st cache dt
  (r.1, if r.2 > 0 then -(r.2 : Int) else 0)

/-- `control_loop_set_target`: linear scan; `-2` if the id is unknown,
otherwise overwrite `target_temp_kelvin` (and nothing else). -/
def control_loop_set_target : List LoopRT → String → ℚ → List LoopRT × Int
  | [], _, _ => ([], -2)
  | l :: rest, loop_id, target =>
    if l.id = loop_id then ({ l with target_temp_kelvin := target } :: rest, 0)
    else
      let r := control_loop_set_target rest loop_id target
      (l :: r.1, r.2)

/-! ## Reference (specification-side) definitions -/

/-- Clamp of the spec text: the nearest point of the interval [lo, hi]. -/
def clampSpec (lo hi x : ℚ) : ℚ := max lo (min hi x)

/-- The spec's reference PID update, written from §4.1 of the spec:
error, integral accumulation with anti-windup, derivative only for
dt > 0, clamped output, stored previous error. -/
def pid_update_spec (pid : CooPid) (setpoint measured dt : ℚ) : ℚ × CooPid :=
  let error := setpoint - measured
  let integral := clampSpec pid.integral_min pid.integral_max (pid.integral + error * dt)
  let derivative := if dt > 0 then (error - pid.prev_error) / dt else 0
  let output := clampSpec pid.output_min pid.output_max
    (pid.kp * error + pid.ki * integral + pid.kd * derivative)
  (output, { pid with integral := integral, prev_error := error })

/-- Fold a list of (setpoint, measured, dt) updates through the PID. -/
def pid_run (pid : CooPid) (updates : List (ℚ × ℚ × ℚ)) : CooPid :=
  updates.foldl (fun p u => (coo_pid_update p u.1 u.2.1 u.2.2).2) pid

/-! ## Lemmas -/

/-- The C clamp idiom (`if x > hi … else if x < lo …`) agrees with the
interval clamp whenever the interval is non-degenerate. -/
theorem ifClamp_eq_clampSpec (lo hi x : ℚ) (h : lo ≤ hi) :
    (if x > hi then hi else if x < lo then lo else x) = clampSpec lo hi x := by
  unfold clampSpec
  split_ifs with h1 h2 <;>
    [skip; skip; skip] <;>
    simp [max_def, min_def] <;> split_ifs <;> linarith

theorem coo_pid_update_integral_min (p : CooPid) (sp m dt : ℚ) :
    (coo_pid_update p sp m dt).2.integral_min = p.integral_min := by
  simp only [coo_pid_update]

theorem coo_pid_update_integral_max (p : CooPid) (sp m dt : ℚ) :
    (coo_pid_update p sp m dt).2.integral_max = p.integral_max := by
  simp only [coo_pid_update]

/-- After any single update with a non-degenerate integral interval, the
stored integral lies inside the interval. -/
theorem coo_pid_update_integral_mem (p : CooPid) (sp m dt : ℚ)
    (h : p.integral_min ≤ p.integral_max) :
    p.integral_min ≤ (coo_pid_update p sp m dt).2.integral ∧
      (coo_pid_update p sp m dt).2.integral ≤ p.integral_max := by
  simp only [coo_pid_update]
  split_ifs with h1 h2 <;> constructor <;> linarith

/-- Running any further updates keeps the integral inside the interval. -/
theorem pid_run_integral_mem (updates : List (ℚ × ℚ × ℚ)) (p : CooPid)
    (h : p.integral_min ≤ p.integral_max)
    (hmem : p.integral_min ≤ p.integral ∧ p.integral ≤ p.integral_max) :
    (pid_run p updates).integral_min = p.integral_min ∧
      (pid_run p updates).integral_max = p.integral_max ∧
      p.integral_min ≤ (pid_run p updates).integral ∧
      (pid_run p updates).integral ≤ p.integral_max := by
  induction updates generalizing p with
  | nil => exact ⟨rfl, rfl, hmem.1, hmem.2⟩
  | cons u rest ih =>
      have hstep := coo_pid_update_integral_mem p u.1 u.2.1 u.2.2 h
      have hmin := coo_pid_update_integral_min p u.1 u.2.1 u.2.2
      have hmax := coo_pid_update_integral_max p u.1 u.2.1 u.2.2
      have := ih ((coo_pid_update p u.1 u.2.1 u.2.2).2)
        (by rw [hmin, hmax]; exact h) (by rw [hmin, hmax]; exact hstep)
      simpa [pid_run, hmin, hmax] using this

/-- The heater-registry invariant: every cached commanded percent lies in
[0, 100]. -/
def percentInRange (hs : List HeaterEntry) : Prop :=
  ∀ e ∈ hs, 0 ≤ e.power_percent ∧ e.power_percent ≤ 100

theorem hm_set_power_go_percentInRange (hs : List HeaterEntry) (id : String)
    (p : ℚ) (hp : 0 ≤ p ∧ p ≤ 100) (hinv : percentInRange hs) :
    percentInRange (hm_set_power_go hs id p).1 := by
  induction hs with
  | nil => simpa [hm_set_power_go] using hinv
  | cons e rest ih =>
      have hinv_rest : percentInRange rest := fun x hx => hinv x (List.mem_cons_of_mem _ hx)
      have hinv_e := hinv e (List.mem_cons_self _ _)
      simp only [hm_set_power_go]
      split_ifs with h1 h2 h3 <;> intro x hx <;>
        rcases List.mem_cons.mp hx with hx | hx <;>
        first
          | (subst hx; first | exact hinv_e | simpa using hp)
          | exact hinv_rest x hx
          | exact ih hinv_rest x hx

/-- The clamp at the top of `heater_manager_set_power` always lands in
[0, 100], so the store keeps the registry invariant. -/
theorem heater_manager_set_power_percentInRange (hs : List HeaterEntry)
    (id : String) (p : ℚ) (hinv : percentInRange hs) :
    percentInRange (heater_manager_set_power hs id p).1 := by
  unfold heater_manager_set_power
  apply hm_set_power_go_percentInRange _ _ _ _ hinv
  split_ifs <;> constructor <;> linarith

/-- Folding steps that each preserve a state predicate preserves it. -/
theorem foldl_preserves {σ α : Type} (P : σ → Prop) (step : σ → α → σ)
    (l : List α) (s : σ) (hstep : ∀ s a, P s → P (step s a)) (h : P s) :
    P (l.foldl step s) := by
  induction l generalizing s with
  | nil => exact h
  | cons a rest ih => exact ih _ (hstep s a h)

/-- Folding any sequence of invariant-preserving steps over the heater
table preserves the registry invariant. -/
theorem foldl_percentInRange {α : Type} (step : List HeaterEntry → α → List HeaterEntry)
    (l : List α) (hs : List HeaterEntry)
    (hstep : ∀ hs a, percentInRange hs → percentInRange (step hs a))
    (hinv : percentInRange hs) :
    percentInRange (l.foldl step hs) :=
  foldl_preserves percentInRange step l hs hstep hinv

theorem heater_manager_distribute_power_percentInRange (hs : List HeaterEntry)
    (ids : List String) (t : ℚ) (hinv : percentInRange hs) :
    percentInRange (heater_manager_distribute_power hs ids t).1 := by
  simp only [heater_manager_distribute_power]
  split_ifs with h1 h2 <;>
    first
      | exact hinv
      | (refine foldl_percentInRange _ ids hs ?_ hinv
         intro hs' a h
         unfold dp_apply
         cases hfind : hm_find hs' a with
         | none => simpa [hfind] using h
         | some e =>
             simpa [hfind] using heater_manager_set_power_percentInRange hs' a _ h)

/-- An id with no entry in the table: `set_power` returns `-2` and the
table is untouched. -/
theorem hm_set_power_go_not_found (hs : List HeaterEntry) (id : String) (p : ℚ)
    (h : hm_find hs id = none) :
    hm_set_power_go hs id p = (hs, -2) := by
  induction hs with
  | nil => rfl
  | cons a rest ih =>
      rw [hm_find] at h
      by_cases ha : a.id = id
      · simp [ha] at h
      · rw [if_neg ha] at h
        simp [hm_set_power_go, ha, ih h]

/-- A disabled heater: `set_power` returns `-3` and the table is
untouched. -/
theorem hm_set_power_go_disabled (hs : List HeaterEntry) (id : String) (p : ℚ)
    (e : HeaterEntry) (hfind : hm_find hs id = some e) (hen : e.enabled = false) :
    hm_set_power_go hs id p = (hs, -3) := by
  induction hs with
  | nil => simp [hm_find] at hfind
  | cons a rest ih =>
      rw [hm_find] at hfind
      by_cases ha : a.id = id
      · rw [if_pos ha] at hfind
        obtain rfl : a = e := Option.some.inj hfind
        simp [hm_set_power_go, ha, hen]
      · rw [if_neg ha] at hfind
        simp [hm_set_power_go, ha, ih hfind]

/-- An enabled heater: after `hm_set_power_go` its entry has exactly the
requested (pre-clamped) percent stored, whatever the return code. -/
theorem hm_set_power_go_find (hs : List HeaterEntry) (id : String) (p : ℚ)
    (e : HeaterEntry) (hfind : hm_find hs id = some e) (hen : e.enabled = true) :
    hm_find (hm_set_power_go hs id p).1 id = some { e with power_percent := p } := by
  induction hs with
  | nil => simp [hm_find] at hfind
  | cons a rest ih =>
      rw [hm_find] at hfind
      by_cases ha : a.id = id
      · rw [if_pos ha] at hfind
        obtain rfl : a = e := Option.some.inj hfind
        by_cases hc : a.htype = HeaterType.highPower ∧ a.regulator_present = true ∧
            a.status = HeaterStatus.error
        · simp [hm_set_power_go, ha, hen, hc, hm_find]
        · simp [hm_set_power_go, ha, hen, hc, hm_find]
      · rw [if_neg ha] at hfind
        simp [hm_set_power_go, ha, hm_find, ih hfind]

/-- All cached commanded percents are exactly zero. -/
def allZeroPercent (hs : List HeaterEntry) : Prop :=
  ∀ e ∈ hs, e.power_percent = 0

theorem hm_set_power_go_allZero (hs : List HeaterEntry) (id : String)
    (h : allZeroPercent hs) : allZeroPercent (hm_set_power_go hs id 0).1 := by
  induction hs with
  | nil => simpa [hm_set_power_go] using h
  | cons a rest ih =>
      have hrest : allZeroPercent rest := fun x hx => h x (List.mem_cons_of_mem _ hx)
      have ha := h a (List.mem_cons_self _ _)
      simp only [hm_set_power_go]
      split_ifs <;> intro x hx <;>
        rcases List.mem_cons.mp hx with hx | hx <;>
        first
          | (subst hx; first | exact ha | rfl)
          | exact hrest x hx
          | exact ih hrest x hx

/-- The safe-off sweep at the end of `heater_manager_init` keeps every
percent at zero. -/
theorem heater_manager_set_power_zero_allZero (hs : List HeaterEntry) (id : String)
    (h : allZeroPercent hs) : allZeroPercent (heater_manager_set_power hs id 0).1 := by
  unfold heater_manager_set_power
  norm_num
  exact hm_set_power_go_allZero hs id h

/-- After a successful `heater_manager_init`, every commanded percent is
zero. -/
theorem heater_manager_init_allZero (cfgs : List HeaterConfigC) (hs : List HeaterEntry)
    (h : heater_manager_init cfgs = Except.ok hs) : allZeroPercent hs := by
  simp only [heater_manager_init] at h
  split_ifs at h with hlen
  obtain rfl := Except.ok.inj h
  refine foldl_preserves allZeroPercent _ _ _
    (fun s e hz => heater_manager_set_power_zero_allZero s e.id hz) ?_
  intro x hx
  obtain ⟨c, -, rfl⟩ := List.mem_map.mp hx
  rfl

/-- The sum/count fold of `get_average`, started from any accumulator,
adds exactly the sum and the count of the valid listed readings. -/
theorem sm_avg_fold_go (slots : List SensorSlot) (ids : List String) (acc : ℚ × Nat) :
    ids.foldl
      (fun acc id =>
        match sm_find slots id with
        | some s => if s.valid then (acc.1 + s.temperature_kelvin, acc.2 + 1) else acc
        | none => acc) acc =
      (acc.1 + (listedValidTemps slots ids).sum,
       acc.2 + (listedValidTemps slots ids).length) := by
  induction ids generalizing acc with
  | nil => simp [listedValidTemps]
  | cons id rest ih =>
      simp only [List.foldl_cons, listedValidTemps, List.filterMap_cons]
      cases hfind : sm_find slots id with
      | none => simpa [hfind, listedValidTemps] using ih acc
      | some s =>
          by_cases hv : s.valid = true
          · simpa [hfind, hv, listedValidTemps, add_assoc, add_comm, add_left_comm]
              using ih (acc.1 + s.temperature_kelvin, acc.2 + 1)
          · simpa [hfind, hv, listedValidTemps] using ih acc

theorem sm_avg_fold_spec (slots : List SensorSlot) (ids : List String) :
    sm_avg_fold slots ids =
      ((listedValidTemps slots ids).sum, (listedValidTemps slots ids).length) := by
  simpa [sm_avg_fold] using sm_avg_fold_go slots ids (0, 0)

/-! ## Claim C5 -/

/-- C5: for a non-empty id list, `sensor_manager_get_average` returns the
arithmetic mean of the cached temperatures of exactly the listed ids whose
cache entry is currently valid — ids with no valid reading are skipped and
contribute nothing — and it fails with `-2` (NoValidSensors) if and only
if that valid subset is empty. -/
theorem get_average_mean_of_valid_subset (slots : List SensorSlot)
    (ids : List String) (h : ids ≠ []) :
    sensor_manager_get_average slots ids =
      (if listedValidTemps slots ids = [] then Except.error (-2)
       else Except.ok ((listedValidTemps slots ids).sum /
              ((listedValidTemps slots ids).length : ℚ))) := by
  simp only [sensor_manager_get_average, sm_avg_fold_spec]
  rw [if_neg (by simpa [List.length_eq_zero] using h)]
  rcases eq_or_ne (listedValidTemps slots ids) [] with hnil | hnil
  · simp [hnil]
  · simp [hnil, List.length_eq_zero]

/-- Witness for C5: one valid sensor at 300 K and one invalid sensor whose
stale 77 K value is skipped — the average is exactly 300 K, not 188.5 K
and not 150 K. -/
theorem get_average_mean_of_valid_subset_witness :
    sensor_manager_get_average
      [{ id := "sensor-1", temperature_kelvin := 300, valid := true },
       { id := "sensor-2", temperature_kelvin := 77, valid := false }]
      ["sensor-1", "sensor-2"] = Except.ok 300 := by
  rw [get_average_mean_of_valid_subset
    [{ id := "sensor-1", temperature_kelvin := 300, valid := true },
     { id := "sensor-2", temperature_kelvin := 77, valid := false }]
    ["sensor-1", "sensor-2"] (by simp)]
  simp [listedValidTemps, sm_find]

/-! ## Claim C3 -/

theorem read_all_go_count (slots : List SensorSlot) (env : List (Option ℚ)) :
    (read_all_go slots env).2 = readFailCount slots env := by
  induction slots generalizing env with
  | nil => rfl
  | cons s rest ih =>
      simp only [read_all_go, readFailCount]
      cases henv : env.headD none <;> by_cases hs : s.enabled = true <;>
        simp [henv, hs, ih, Nat.add_comm]

/-- C3 counterexample: one enabled sensor whose read fails.  The count of
failed enabled-sensor reads is 1, but `sensor_manager_read_all` returns
−1 — the negated count, a negative value — so the claim that a completed
tick returns the (non-negative) failure count is false. -/
theorem read_all_negative_return_counterexample :
    (sensor_manager_read_all [{ id := "sensor-1" }] [none]).2 = -1 ∧
    readFailCount [{ id := "sensor-1" }] [none] = 1 ∧
    ((-1 : Int) < 0) := by
  refine ⟨?_, rfl, by norm_num⟩
  norm_num [sensor_manager_read_all, read_all_go]

/-- C3 amended: `sensor_manager_read_all` returns the NEGATED count of
failed enabled-sensor reads for the tick, and `control_loop_update_all`
returns the negated aggregate error count of its scan — 0 on a fully
nominal tick, negative when at least one sensor or loop is degraded; a
completed tick never returns a positive value. -/
theorem tick_returns_negated_error_count :
    (∀ slots env, (sensor_manager_read_all slots env).2 =
      -(readFailCount slots env : Int)) ∧
    (∀ st cache dt, (control_loop_update_all st cache dt).2 =
      -((control_loop_update_all_core st cache dt).2 : Int)) ∧
    (∀ slots env, (sensor_manager_read_all slots env).2 ≤ 0) ∧
    (∀ st cache dt, (control_loop_update_all st cache dt).2 ≤ 0) := by
  have h1 : ∀ slots env, (sensor_manager_read_all slots env).2 =
      -(readFailCount slots env : Int) := by
    intro slots env
    simp only [sensor_manager_read_all, read_all_go_count]
    rcases Nat.eq_zero_or_pos (readFailCount slots env) with h | h
    · simp [h]
    · simp [h]
  have h2 : ∀ st cache dt, (control_loop_update_all st cache dt).2 =
      -((control_loop_update_all_core st cache dt).2 : Int) := by
    intro st cache dt
    simp only [control_loop_update_all]
    rcases Nat.eq_zero_or_pos (control_loop_update_all_core st cache dt).2 with h | h
    · simp [h]
    · simp [h]
  refine ⟨h1, h2, ?_, ?_⟩
  · intro slots env
    rw [h1]
    simp
  · intro st cache dt
    rw [h2]
    simp

/-! ## Claim C6 -/

/-- The per-loop scan of `config_validate` returns 0 iff every ENABLED
loop's sensor/heater references resolve and no enabled loop directly
follows itself; disabled loops are skipped entirely. -/
theorem config_validate_loops_eq_zero (c : ThermalConfig) (ls : List LoopConfigC) :
    config_validate_loops c ls = 0 ↔
      ∀ loop ∈ ls, loop.enabled = true →
        (∀ sid ∈ loop.sensor_ids, ∃ s ∈ c.sensors, s.id = sid) ∧
        (∀ hid ∈ loop.heater_ids, ∃ h ∈ c.heaters, h.id = hid) ∧
        ¬(loop.follows_loop_id ≠ "" ∧ loop.follows_loop_id = loop.id) := by
  induction ls with
  | nil => simp [config_validate_loops]
  | cons loop rest ih =>
      by_cases h1 : loop.enabled = true
      · by_cases h2 : ∀ sid ∈ loop.sensor_ids, ∃ s ∈ c.sensors, s.id = sid
        · have e2 : (loop.sensor_ids.all fun sid =>
              c.sensors.any fun s => s.id = sid) = true := by
            simp only [List.all_eq_true, List.any_eq_true, decide_eq_true_eq]
            exact h2
          by_cases h3 : ∀ hid ∈ loop.heater_ids, ∃ h ∈ c.heaters, h.id = hid
          · have e3 : (loop.heater_ids.all fun hid =>
                c.heaters.any fun h => h.id = hid) = true := by
              simp only [List.all_eq_true, List.any_eq_true, decide_eq_true_eq]
              exact h3
            by_cases h4 : loop.follows_loop_id ≠ "" ∧ loop.follows_loop_id = loop.id
            · rw [config_validate_loops, if_neg (not_not.mpr h1),
                if_neg (not_not.mpr e2), if_neg (not_not.mpr e3), if_pos h4]
              constructor
              · intro hcon; exact absurd hcon (by norm_num)
              · intro hall
                exact absurd h4 (hall loop (List.mem_cons_self _ _) h1).2.2
            · rw [config_validate_loops, if_neg (not_not.mpr h1),
                if_neg (not_not.mpr e2), if_neg (not_not.mpr e3), if_neg h4, ih]
              constructor
              · intro hrest l hl
                rcases List.mem_cons.mp hl with rfl | hl
                · exact fun _ => ⟨h2, h3, h4⟩
                · exact hrest l hl
              · intro hall l hl
                exact hall l (List.mem_cons_of_mem _ hl)
          · have e3 : ¬(loop.heater_ids.all fun hid =>
                c.heaters.any fun h => h.id = hid) = true := by
              simp only [List.all_eq_true, List.any_eq_true, decide_eq_true_eq]
              exact h3
            rw [config_validate_loops, if_neg (not_not.mpr h1),
              if_neg (not_not.mpr e2), if_pos e3]
            constructor
            · intro hcon; exact absurd hcon (by norm_num)
            · intro hall
              exact absurd (hall loop (List.mem_cons_self _ _) h1).2.1 h3
        · have e2 : ¬(loop.sensor_ids.all fun sid =>
              c.sensors.any fun s => s.id = sid) = true := by
            simp only [List.all_eq_true, List.any_eq_true, decide_eq_true_eq]
            exact h2
          rw [config_validate_loops, if_neg (not_not.mpr h1), if_pos e2]
          constructor
          · intro hcon; exact absurd hcon (by norm_num)
          · intro hall
            exact absurd (hall loop (List.mem_cons_self _ _) h1).1 h2
      · rw [config_validate_loops, if_pos h1, ih]
        constructor
        · intro hrest l hl
          rcases List.mem_cons.mp hl with rfl | hl
          · intro hen; exact absurd hen h1
          · exact hrest l hl
        · intro hall l hl
          exact hall l (List.mem_cons_of_mem _ hl)

/-- A configuration with no sensors and a single DISABLED loop that
references the unresolvable sensor id "ghost" and directly follows
itself. -/
def cfgDisabledBadLoop : ThermalConfig :=
  { sensors := []
    heaters := []
    control_loops := [{ id := "loop-1", sensor_ids := ["ghost"],
                        follows_loop_id := "loop-1", enabled := false }] }

/-- C6 counterexample: `config_validate` accepts (returns 0 for) a
configuration in which a loop references a sensor id that resolves to no
spec and directly follows itself — the loop is disabled and the per-loop
checks skip disabled loops — refuting the claim that every configuration
with an unresolved reference or a direct self-follow is rejected. -/
theorem config_validate_skips_disabled_loops :
    config_validate cfgDisabledBadLoop = 0 ∧
    cfgDisabledBadLoop.sensors = [] ∧
    cfgDisabledBadLoop.control_loops.map (fun l => l.sensor_ids) = [["ghost"]] ∧
    cfgDisabledBadLoop.control_loops.map (fun l => (l.follows_loop_id, l.id)) =
      [("loop-1", "loop-1")] :=
  ⟨rfl, rfl, rfl, rfl⟩

/-- C6 amended: `config_validate` accepts a configuration exactly when
the sensor/heater/loop counts are within the static maxima and every
ENABLED loop's sensor and heater ids resolve to existing specs and no
enabled loop directly follows itself; disabled loops are not checked. -/
theorem config_validate_accepts_iff (c : ThermalConfig) :
    config_validate c = 0 ↔
      c.sensors.length ≤ MAX_SENSORS ∧ c.heaters.length ≤ MAX_HEATERS ∧
      c.control_loops.length ≤ MAX_CONTROL_LOOPS ∧
      ∀ loop ∈ c.control_loops, loop.enabled = true →
        (∀ sid ∈ loop.sensor_ids, ∃ s ∈ c.sensors, s.id = sid) ∧
        (∀ hid ∈ loop.heater_ids, ∃ h ∈ c.heaters, h.id = hid) ∧
        ¬(loop.follows_loop_id ≠ "" ∧ loop.follows_loop_id = loop.id) := by
  unfold config_validate
  split_ifs with hs hh hl
  · constructor
    · intro hcon; exact absurd hcon (by norm_num)
    · intro hall; exact absurd hall.1 (not_le.mpr hs)
  · constructor
    · intro hcon; exact absurd hcon (by norm_num)
    · intro hall; exact absurd hall.2.1 (not_le.mpr hh)
  · constructor
    · intro hcon; exact absurd hcon (by norm_num)
    · intro hall; exact absurd hall.2.2.1 (not_le.mpr hl)
  · rw [config_validate_loops_eq_zero]
    constructor
    · intro h
      exact ⟨not_lt.mp hs, not_lt.mp hh, not_lt.mp hl, h⟩
    · intro hall
      exact hall.2.2.2

/-! ## Claim C8 -/

/-- C8: every heater's stored commanded percent stays in [0, 100]: it is
0 after a successful `heater_manager_init`, and `set_power`,
`distribute_power` and `emergency_stop` all preserve the bound; in
particular a request of −5 stores 0 and a request of 150 stores 100 on
any existing enabled heater. -/
theorem heater_percent_always_in_range :
    (∀ cfgs hs, heater_manager_init cfgs = Except.ok hs → ∀ e ∈ hs, e.power_percent = 0) ∧
    (∀ cfgs hs, heater_manager_init cfgs = Except.ok hs → percentInRange hs) ∧
    (∀ hs id p, percentInRange hs → percentInRange (heater_manager_set_power hs id p).1) ∧
    (∀ hs ids t, percentInRange hs →
      percentInRange (heater_manager_distribute_power hs ids t).1) ∧
    (∀ hs, percentInRange (heater_manager_emergency_stop hs).1) ∧
    (∀ hs id e, hm_find hs id = some e → e.enabled = true →
      hm_find (heater_manager_set_power hs id (-5)).1 id =
        some { e with power_percent := 0 }) ∧
    (∀ hs id e, hm_find hs id = some e → e.enabled = true →
      hm_find (heater_manager_set_power hs id 150).1 id =
        some { e with power_percent := 100 }) := by
  refine ⟨heater_manager_init_allZero, ?_, heater_manager_set_power_percentInRange,
    heater_manager_distribute_power_percentInRange, ?_, ?_, ?_⟩
  · intro cfgs hs h e he
    have := heater_manager_init_allZero cfgs hs h e he
    rw [this]
    norm_num
  · intro hs e he
    simp only [heater_manager_emergency_stop, List.mem_map] at he
    obtain ⟨a, -, rfl⟩ := he
    norm_num
  · intro hs id e hfind hen
    unfold heater_manager_set_power
    norm_num
    exact hm_set_power_go_find hs id 0 e hfind hen
  · intro hs id e hfind hen
    unfold heater_manager_set_power
    norm_num
    exact hm_set_power_go_find hs id 100 e hfind hen

/-- Witness for C8 on a one-heater configuration and a one-heater table
holding 20%. -/
theorem heater_percent_always_in_range_witness :
    heater_manager_init [{ id := "heater-1", max_power_w := 50 }] =
      Except.ok [{ id := "heater-1", power_percent := 0, max_power_watts := 50 }] ∧
    percentInRange [{ id := "heater-1", power_percent := 0, max_power_watts := 50 }] ∧
    hm_find [{ id := "heater-1", power_percent := 20, max_power_watts := 50 }]
      "heater-1" = some { id := "heater-1", power_percent := 20, max_power_watts := 50 } ∧
    hm_find (heater_manager_set_power
        [{ id := "heater-1", power_percent := 20, max_power_watts := 50 }]
        "heater-1" (-5)).1 "heater-1" =
      some { id := "heater-1", power_percent := 0, max_power_watts := 50 } ∧
    hm_find (heater_manager_set_power
        [{ id := "heater-1", power_percent := 20, max_power_watts := 50 }]
        "heater-1" 150).1 "heater-1" =
      some { id := "heater-1", power_percent := 100, max_power_watts := 50 } := by
  have t := heater_percent_always_in_range
  have hinit : heater_manager_init [{ id := "heater-1", max_power_w := 50 }] =
      Except.ok [{ id := "heater-1", power_percent := 0, max_power_watts := 50 }] := by
    norm_num [heater_manager_init, heater_manager_set_power, hm_set_power_go]
    decide
  have hfind : hm_find [{ id := "heater-1", power_percent := 20, max_power_watts := 50 }]
      "heater-1" = some { id := "heater-1", power_percent := 20, max_power_watts := 50 } := by
    simp [hm_find]
  refine ⟨hinit, t.2.1 _ _ hinit, hfind, ?_, ?_⟩
  · exact t.2.2.2.2.2.1 _ "heater-1"
      { id := "heater-1", power_percent := 20, max_power_watts := 50 } hfind rfl
  · exact t.2.2.2.2.2.2 _ "heater-1"
      { id := "heater-1", power_percent := 20, max_power_watts := 50 } hfind rfl

/-! ## Lemmas for the distribution loop (claims C4 and C10) -/

/-- Every field of an entry except the commanded percent. -/
def hm_shape (e : HeaterEntry) :
    String × ℚ × ℚ × HeaterStatus × Bool × HeaterType × Bool :=
  (e.id, e.max_power_watts, e.resistance_ohms, e.status, e.enabled, e.htype,
   e.regulator_present)

/-- `set_power` can only change the commanded percent: any lookup sees
the same entry up to its percent. -/
theorem hm_set_power_go_find_shape (hs : List HeaterEntry) (tid : String) (p : ℚ)
    (id : String) :
    (hm_find (hm_set_power_go hs tid p).1 id).map hm_shape =
      (hm_find hs id).map hm_shape := by
  induction hs with
  | nil => rfl
  | cons e rest ih =>
      by_cases he : e.id = tid
      · simp only [hm_set_power_go, if_pos he]
        split_ifs with h1 h2 <;> by_cases hid : e.id = id <;>
          simp [hm_find, hid, hm_shape]
      · simp only [hm_set_power_go, if_neg he, hm_find]
        by_cases hid : e.id = id
        · simp [hid]
        · simp [hid, ih]

/-- `set_power` aimed at a different id leaves a lookup unchanged. -/
theorem hm_set_power_go_find_other (hs : List HeaterEntry) (tid : String) (p : ℚ)
    (id : String) (hne : id ≠ tid) :
    hm_find (hm_set_power_go hs tid p).1 id = hm_find hs id := by
  induction hs with
  | nil => rfl
  | cons e rest ih =>
      by_cases he : e.id = tid
      · have hei : ¬e.id = id := by rw [he]; exact fun h => hne h.symm
        simp only [hm_set_power_go, if_pos he]
        split_ifs with h1 h2 <;> simp [hm_find, hei]
      · simp only [hm_set_power_go, if_neg he, hm_find]
        by_cases hid : e.id = id
        · simp [hid]
        · simp [hid, ih]

/-- A percent already inside [0, 100] passes the entry clamp of
`set_power` unchanged. -/
theorem heater_manager_set_power_of_mem_range (hs : List HeaterEntry) (id : String)
    (v : ℚ) (h0 : 0 ≤ v) (h100 : v ≤ 100) :
    heater_manager_set_power hs id v = hm_set_power_go hs id v := by
  unfold heater_manager_set_power
  rw [if_neg (not_lt.mpr h0)]
  show hm_set_power_go hs id (if v > 100 then 100 else v) = hm_set_power_go hs id v
  rw [if_neg (not_lt.mpr h100)]

/-- As `hm_set_power_go_find_shape`, lifted over the entry clamp. -/
theorem heater_manager_set_power_find_shape (hs : List HeaterEntry) (tid : String)
    (p : ℚ) (id : String) :
    (hm_find (heater_manager_set_power hs tid p).1 id).map hm_shape =
      (hm_find hs id).map hm_shape := by
  unfold heater_manager_set_power
  exact hm_set_power_go_find_shape hs tid _ id

/-- A `dp_apply` step keeps every id resolvable to an enabled entry with
positive max power (only percents change). -/
theorem dp_apply_preserves_resolve (cap t : ℚ) (hs : List HeaterEntry)
    (tid id : String)
    (h : ∃ e, hm_find hs id = some e ∧ e.enabled = true ∧ 0 < e.max_power_watts) :
    ∃ e, hm_find (dp_apply cap t hs tid) id = some e ∧ e.enabled = true ∧
      0 < e.max_power_watts := by
  obtain ⟨e, hfind, hen, hm⟩ := h
  unfold dp_apply
  cases hf0 : hm_find hs tid with
  | none => exact ⟨e, hfind, hen, hm⟩
  | some e0 =>
      have hsh := heater_manager_set_power_find_shape hs tid
        (t * (e0.max_power_watts / cap) / e0.max_power_watts * 100) id
      rw [hfind] at hsh
      cases hfr : hm_find (heater_manager_set_power hs tid
          (t * (e0.max_power_watts / cap) / e0.max_power_watts * 100)).1 id with
      | none => rw [hfr] at hsh; exact absurd hsh (by simp)
      | some e' =>
          rw [hfr] at hsh
          have hcomp := Option.some.inj hsh
          simp only [hm_shape, Prod.mk.injEq] at hcomp
          exact ⟨e', rfl, by rw [hcomp.2.2.2.2.1]; exact hen,
            by rw [hcomp.2.1]; exact hm⟩

/-- Once an id is not in the remaining work list, the distribution fold
never touches its lookup again. -/
theorem dp_fold_not_mem (cap t : ℚ) (l : List String) (id : String) (hid : id ∉ l) :
    ∀ hs, hm_find (l.foldl (dp_apply cap t) hs) id = hm_find hs id := by
  induction l with
  | nil => intro hs; rfl
  | cons a rest ih =>
      intro hs
      have hne : id ≠ a := fun h => hid (h ▸ List.mem_cons_self _ _)
      have hrest : id ∉ rest := fun h => hid (List.mem_cons_of_mem _ h)
      simp only [List.foldl_cons]
      rw [ih hrest]
      unfold dp_apply
      cases hf : hm_find hs a with
      | none => rfl
      | some e =>
          unfold heater_manager_set_power
          exact hm_set_power_go_find_other hs a _ id hne

/-- The capacity fold only grows the accumulator, and grows it strictly
when every listed id resolves to a positive-max entry and the list is
non-empty. -/
theorem dp_capacity_fold_mono (hs : List HeaterEntry) (l : List String) :
    ∀ acc : ℚ,
    (∀ id ∈ l, ∃ e, hm_find hs id = some e ∧ 0 < e.max_power_watts) →
    acc ≤ l.foldl
      (fun acc id =>
        match hm_find hs id with
        | some e => acc + e.max_power_watts
        | none => acc) acc ∧
    (l ≠ [] → acc < l.foldl
      (fun acc id =>
        match hm_find hs id with
        | some e => acc + e.max_power_watts
        | none => acc) acc) := by
  induction l with
  | nil => exact fun acc _ => ⟨le_refl acc, fun h => absurd rfl h⟩
  | cons a rest ih =>
      intro acc hres
      obtain ⟨e, hf, hm⟩ := hres a (List.mem_cons_self _ _)
      have hrest : ∀ id ∈ rest, ∃ e, hm_find hs id = some e ∧ 0 < e.max_power_watts :=
        fun id hid => hres id (List.mem_cons_of_mem _ hid)
      have step := ih (acc + e.max_power_watts) hrest
      simp only [List.foldl_cons, hf]
      exact ⟨le_trans (by linarith) step.1,
        fun _ => lt_of_lt_of_le (by linarith) step.1⟩

/-- With a non-empty set of resolvable positive-max heaters the capacity
is positive. -/
theorem dp_capacity_pos (hs : List HeaterEntry) (ids : List String) (hne : ids ≠ [])
    (hres : ∀ id ∈ ids, ∃ e, hm_find hs id = some e ∧ 0 < e.max_power_watts) :
    0 < dp_capacity hs ids :=
  (dp_capacity_fold_mono hs ids 0 hres).2 hne

/-- The C clamp pair of `distribute_power` (upper bound first, then lower
bound) lands on the interval clamp for a positive capacity. -/
theorem dp_clamp_eq (cap total : ℚ) (hcap : 0 < cap) :
    (if (if total > cap then cap else total) < 0 then 0
     else if total > cap then cap else total) = clampSpec 0 cap total := by
  unfold clampSpec
  split_ifs <;> simp [max_def, min_def] <;> split_ifs <;> linarith

/-- The distribution fold drives any listed id that resolves to an
enabled entry with positive max power to the same percent-of-own-maximum
`t / cap * 100`, regardless of what the other listed ids resolve to. -/
theorem dp_fold_uniform_mem (cap t : ℚ) (hpct0 : 0 ≤ t / cap * 100)
    (hpct1 : t / cap * 100 ≤ 100) (ids : List String) :
    ∀ (hs : List HeaterEntry) (id : String), id ∈ ids →
    ∀ e, hm_find hs id = some e → e.enabled = true → 0 < e.max_power_watts →
    ∃ e', hm_find (ids.foldl (dp_apply cap t) hs) id = some e' ∧
      e'.power_percent = t / cap * 100 := by
  induction ids with
  | nil => intro hs id hid; cases hid
  | cons a rest ih =>
      intro hs id hid e hf hen hm
      simp only [List.foldl_cons]
      rcases List.mem_cons.mp hid with rfl | hmem
      · by_cases hmem2 : id ∈ rest
        · obtain ⟨e1, hf1, hen1, hm1⟩ :=
            dp_apply_preserves_resolve cap t hs id id ⟨e, hf, hen, hm⟩
          exact ih (dp_apply cap t hs id) id hmem2 e1 hf1 hen1 hm1
        · rw [dp_fold_not_mem cap t rest id hmem2]
          have hstep : dp_apply cap t hs id = (hm_set_power_go hs id (t / cap * 100)).1 := by
            unfold dp_apply
            rw [hf]
            have harith : t * (e.max_power_watts / cap) / e.max_power_watts * 100 =
                t / cap * 100 := by
              rw [mul_div_assoc', div_right_comm, mul_div_cancel_right₀ _ (ne_of_gt hm)]
            show (heater_manager_set_power hs id
              (t * (e.max_power_watts / cap) / e.max_power_watts * 100)).1 = _
            rw [harith, heater_manager_set_power_of_mem_range hs id _ hpct0 hpct1]
          rw [hstep]
          exact ⟨{ e with power_percent := t / cap * 100 },
            hm_set_power_go_find hs id (t / cap * 100) e hf hen, rfl⟩
      · obtain ⟨e1, hf1, hen1, hm1⟩ :=
          dp_apply_preserves_resolve cap t hs a id ⟨e, hf, hen, hm⟩
        exact ih (dp_apply cap t hs a) id hmem e1 hf1 hen1 hm1

/-- A listed id whose (first-matching) entry is disabled is never
changed by the distribution fold: its own `set_power` call fails on the
disabled check and stores nothing, and steps aimed at other ids only
touch entries carrying those other ids. -/
theorem dp_fold_disabled_unchanged (cap t : ℚ) (ids : List String) :
    ∀ (hs : List HeaterEntry) (id : String) (e : HeaterEntry),
    hm_find hs id = some e → e.enabled = false →
    hm_find (ids.foldl (dp_apply cap t) hs) id = some e := by
  induction ids with
  | nil => intro hs id e hf _; exact hf
  | cons a rest ih =>
      intro hs id e hf hen
      simp only [List.foldl_cons]
      by_cases ha : a = id
      · subst ha
        have hstep : dp_apply cap t hs a = hs := by
          unfold dp_apply
          rw [hf]
          show (heater_manager_set_power hs a
            (t * (e.max_power_watts / cap) / e.max_power_watts * 100)).1 = hs
          unfold heater_manager_set_power
          rw [hm_set_power_go_disabled hs a _ e hf hen]
        rw [hstep]
        exact ih hs a e hf hen
      · have hfind1 : hm_find (dp_apply cap t hs a) id = some e := by
          unfold dp_apply
          cases hfa : hm_find hs a with
          | none => exact hf
          | some ea =>
              show hm_find (heater_manager_set_power hs a
                (t * (ea.max_power_watts / cap) / ea.max_power_watts * 100)).1 id =
                some e
              unfold heater_manager_set_power
              rw [hm_set_power_go_find_other hs a _ id (fun h => ha h.symm)]
              exact hf
        exact ih (dp_apply cap t hs a) id e hfind1 hen

/-! ## Claim C4 -/

/-- C4 amended: for every call on a non-empty heater set whose listed
capacity is positive — mixed sets included — the requested total is
clamped to [0, capacity] and the call returns success; every listed
heater that resolves to an existing, ENABLED entry with positive rated
max power ends at the same percent-of-its-own-maximum,
`clamped_total / capacity × 100`; every listed heater that resolves to a
DISABLED entry keeps its previous command unchanged (its `set_power`
call fails on the disabled check and stores nothing); and any call whose
listed capacity is not positive fails with `-2`, the table returned
unchanged. -/
theorem distribute_power_uniform_utilization (hs : List HeaterEntry)
    (ids : List String) (total : ℚ) (hne : ids ≠ [])
    (hcap : 0 < dp_capacity hs ids) :
    (heater_manager_distribute_power hs ids total).2 = 0 ∧
    (∀ id ∈ ids, ∀ e, hm_find hs id = some e → e.enabled = true →
      0 < e.max_power_watts →
      ∃ e', hm_find (heater_manager_distribute_power hs ids total).1 id = some e' ∧
        e'.power_percent =
          clampSpec 0 (dp_capacity hs ids) total / dp_capacity hs ids * 100) ∧
    (∀ id ∈ ids, ∀ e, hm_find hs id = some e → e.enabled = false →
      hm_find (heater_manager_distribute_power hs ids total).1 id = some e) ∧
    (∀ (hs' : List HeaterEntry) (ids' : List String) (total' : ℚ),
      ids' ≠ [] → dp_capacity hs' ids' ≤ 0 →
      heater_manager_distribute_power hs' ids' total' = (hs', -2)) := by
  have hlen : ¬ids.length ≤ 0 := by
    simpa [Nat.pos_iff_ne_zero, List.length_eq_zero] using hne
  have hQ : ¬dp_capacity hs ids ≤ 0 := not_le.mpr hcap
  have hunfold : heater_manager_distribute_power hs ids total =
      (ids.foldl
        (dp_apply (dp_capacity hs ids)
          (clampSpec 0 (dp_capacity hs ids) total)) hs, 0) := by
    unfold heater_manager_distribute_power
    rw [if_neg hlen, if_neg hQ, ← dp_clamp_eq _ total hcap]
  refine ⟨by rw [hunfold], ?_, ?_, ?_⟩
  · rw [hunfold]
    have ht0 : 0 ≤ clampSpec 0 (dp_capacity hs ids) total := le_max_left _ _
    have ht1 : clampSpec 0 (dp_capacity hs ids) total ≤ dp_capacity hs ids := by
      unfold clampSpec
      exact max_le (le_of_lt hcap) (min_le_left _ _)
    have hpct0 : 0 ≤ clampSpec 0 (dp_capacity hs ids) total / dp_capacity hs ids * 100 := by
      have := div_nonneg ht0 (le_of_lt hcap)
      linarith
    have hpct1 : clampSpec 0 (dp_capacity hs ids) total / dp_capacity hs ids * 100 ≤ 100 := by
      have := (div_le_one hcap).mpr ht1
      linarith
    intro id hid e hf hen hm
    exact dp_fold_uniform_mem _ _ hpct0 hpct1 ids hs id hid e hf hen hm
  · intro id hid e hf hen
    rw [hunfold]
    exact dp_fold_disabled_unchanged _ _ ids hs id e hf hen
  · intro hs' ids' total' hne' hle'
    have hlen' : ¬ids'.length ≤ 0 := by
      simpa [Nat.pos_iff_ne_zero, List.length_eq_zero] using hne'
    unfold heater_manager_distribute_power
    rw [if_neg hlen', if_pos hle']

/-- Witness for C4 (amended) on a MIXED set: heaters A (40 W, enabled)
and B (10 W, disabled, previously at 0%), request 25 W, capacity 50 W —
A ends at 50% of its own maximum while B's entry is returned unchanged. -/
theorem distribute_power_uniform_utilization_witness :
    (["A", "B"] : List String) ≠ [] ∧
    0 < dp_capacity
      [{ id := "A", max_power_watts := 40 },
       { id := "B", max_power_watts := 10, enabled := false }] ["A", "B"] ∧
    (heater_manager_distribute_power
      [{ id := "A", max_power_watts := 40 },
       { id := "B", max_power_watts := 10, enabled := false }] ["A", "B"] 25).2 = 0 ∧
    (∃ e', hm_find (heater_manager_distribute_power
        [{ id := "A", max_power_watts := 40 },
         { id := "B", max_power_watts := 10, enabled := false }] ["A", "B"] 25).1
        "A" = some e' ∧
      e'.power_percent =
        clampSpec 0 (dp_capacity
          [{ id := "A", max_power_watts := 40 },
           { id := "B", max_power_watts := 10, enabled := false }] ["A", "B"]) 25 /
          dp_capacity
            [{ id := "A", max_power_watts := 40 },
             { id := "B", max_power_watts := 10, enabled := false }] ["A", "B"] * 100) ∧
    hm_find (heater_manager_distribute_power
        [{ id := "A", max_power_watts := 40 },
         { id := "B", max_power_watts := 10, enabled := false }] ["A", "B"] 25).1
      "B" = some { id := "B", max_power_watts := 10, enabled := false } := by
  have t := distribute_power_uniform_utilization
    [{ id := "A", max_power_watts := 40 },
     { id := "B", max_power_watts := 10, enabled := false }]
    ["A", "B"] 25 (by simp) (by simp [dp_capacity, hm_find] <;> norm_num)
  refine ⟨by simp, by simp [dp_capacity, hm_find] <;> norm_num, t.1, ?_, ?_⟩
  · exact t.2.1 "A" (by simp) { id := "A", max_power_watts := 40 }
      (by simp [hm_find]) rfl (by norm_num)
  · exact t.2.2.1 "B" (by simp)
      { id := "B", max_power_watts := 10, enabled := false }
      (by simp [hm_find]) rfl

/-- C4 counterexample: heaters A (40 W, enabled) and B (10 W, DISABLED),
both at 0%.  `distribute_power([A,B], 25)` has positive capacity (50 W)
and succeeds, and A ends at 50% of its maximum — but B's `set_power`
fails on the disabled check, so B stays at 0%: not every heater in the
set ends at the same percent-of-its-own-maximum. -/
theorem distribute_power_uniform_counterexample :
    0 < dp_capacity
      [{ id := "A", max_power_watts := 40 },
       { id := "B", max_power_watts := 10, enabled := false }] ["A", "B"] ∧
    (heater_manager_distribute_power
      [{ id := "A", max_power_watts := 40 },
       { id := "B", max_power_watts := 10, enabled := false }] ["A", "B"] 25).2 = 0 ∧
    hm_find (heater_manager_distribute_power
      [{ id := "A", max_power_watts := 40 },
       { id := "B", max_power_watts := 10, enabled := false }] ["A", "B"] 25).1 "A" =
      some { id := "A", max_power_watts := 40, power_percent := 50 } ∧
    hm_find (heater_manager_distribute_power
      [{ id := "A", max_power_watts := 40 },
       { id := "B", max_power_watts := 10, enabled := false }] ["A", "B"] 25).1 "B" =
      some { id := "B", max_power_watts := 10, enabled := false, power_percent := 0 } ∧
    (0 : ℚ) ≠ 50 := by
  refine ⟨by simp [dp_capacity, hm_find] <;> norm_num, ?_, ?_, ?_, by norm_num⟩ <;>
    (simp [heater_manager_distribute_power, dp_capacity, dp_apply, hm_find,
      heater_manager_set_power, hm_set_power_go] <;> norm_num <;> simp [hm_find])

/-! ## Claim C10 -/

/-- On the high-power regulator-error path, `set_power` has already
stored the clamped percent when it returns `-4`. -/
theorem hm_set_power_go_reg_error (hs : List HeaterEntry) (id : String) (p : ℚ)
    (e : HeaterEntry) (hfind : hm_find hs id = some e) (hen : e.enabled = true)
    (hhp : e.htype = HeaterType.highPower) (hreg : e.regulator_present = true)
    (hst : e.status = HeaterStatus.error) :
    (hm_set_power_go hs id p).2 = -4 := by
  induction hs with
  | nil => simp [hm_find] at hfind
  | cons a rest ih =>
      rw [hm_find] at hfind
      by_cases ha : a.id = id
      · rw [if_pos ha] at hfind
        obtain rfl : a = e := Option.some.inj hfind
        simp [hm_set_power_go, ha, hen, hhp, hreg, hst]
      · rw [if_neg ha] at hfind
        simp [hm_set_power_go, ha, ih hfind]

/-- C10 amended: `distribute_power` discards every per-heater `set_power`
result and returns success whenever the listed capacity is positive, even
when the underlying calls fail; a heater whose `set_power` failed because
its id is unknown or because it is disabled keeps its previous command;
but a heater failing on the regulator-error path has the clamped percent
stored before the `-4` failure — so a success return from
`distribute_power` guarantees neither the uniform outcome nor an
unchanged command for failing heaters. -/
theorem distribute_power_ignores_set_power_results :
    (∀ hs ids total, ids ≠ [] → 0 < dp_capacity hs ids →
      (heater_manager_distribute_power hs ids total).2 = 0) ∧
    (∀ hs id p, hm_find hs id = none →
      heater_manager_set_power hs id p = (hs, -2)) ∧
    (∀ hs id p e, hm_find hs id = some e → e.enabled = false →
      heater_manager_set_power hs id p = (hs, -3)) ∧
    (∀ hs id p e, hm_find hs id = some e → e.enabled = true →
      e.htype = HeaterType.highPower → e.regulator_present = true →
      e.status = HeaterStatus.error →
      (heater_manager_set_power hs id p).2 = -4 ∧
      hm_find (heater_manager_set_power hs id p).1 id =
        some { e with power_percent :=
          if (if p < 0 then 0 else p) > 100 then 100
          else if p < 0 then 0 else p }) := by
  refine ⟨?_, ?_, ?_, ?_⟩
  · intro hs ids total hne hcap
    have hlen : ¬ids.length ≤ 0 := by
      simpa [Nat.pos_iff_ne_zero, List.length_eq_zero] using hne
    unfold heater_manager_distribute_power
    rw [if_neg hlen, if_neg (not_le.mpr hcap)]
  · intro hs id p h
    unfold heater_manager_set_power
    exact hm_set_power_go_not_found hs id _ h
  · intro hs id p e hfind hen
    unfold heater_manager_set_power
    exact hm_set_power_go_disabled hs id _ e hfind hen
  · intro hs id p e hfind hen hhp hreg hst
    constructor
    · unfold heater_manager_set_power
      exact hm_set_power_go_reg_error hs id _ e hfind hen hhp hreg hst
    · unfold heater_manager_set_power
      exact hm_set_power_go_find hs id _ e hfind hen

/-- Witness for C10 (amended): a lone enabled high-power heater whose
regulator was bound but failed its readiness check at init (status
ERROR), previously commanded to 30%. -/
theorem distribute_power_ignores_set_power_results_witness :
    (["H"] : List String) ≠ [] ∧
    0 < dp_capacity
      [{ id := "H", power_percent := 30, max_power_watts := 50,
         status := HeaterStatus.error, htype := HeaterType.highPower,
         regulator_present := true }] ["H"] ∧
    (heater_manager_distribute_power
      [{ id := "H", power_percent := 30, max_power_watts := 50,
         status := HeaterStatus.error, htype := HeaterType.highPower,
         regulator_present := true }] ["H"] 20).2 = 0 ∧
    (heater_manager_set_power
      [{ id := "H", power_percent := 30, max_power_watts := 50,
         status := HeaterStatus.error, htype := HeaterType.highPower,
         regulator_present := true }] "H" 40).2 = -4 ∧
    hm_find (heater_manager_set_power
      [{ id := "H", power_percent := 30, max_power_watts := 50,
         status := HeaterStatus.error, htype := HeaterType.highPower,
         regulator_present := true }] "H" 40).1 "H" =
      some { id := "H", power_percent := 40, max_power_watts := 50,
             status := HeaterStatus.error, htype := HeaterType.highPower,
             regulator_present := true } := by
  have t := distribute_power_ignores_set_power_results
  have hfind : hm_find
      [{ id := "H", power_percent := 30, max_power_watts := 50,
         status := HeaterStatus.error, htype := HeaterType.highPower,
         regulator_present := true }] "H" =
      some { id := "H", power_percent := 30, max_power_watts := 50,
             status := HeaterStatus.error, htype := HeaterType.highPower,
             regulator_present := true } := by
    simp [hm_find]
  have h4 := t.2.2.2 _ "H" 40 _ hfind rfl rfl rfl rfl
  refine ⟨by simp, by simp [dp_capacity, hm_find], ?_, h4.1, ?_⟩
  · exact t.1 _ ["H"] 20 (by simp) (by simp [dp_capacity, hm_find])
  · rw [h4.2]
    norm_num

/-- C10 counterexample (to the unchanged-command reading of C4's
contract): the heater's `set_power` call failed with `-4`, yet its
commanded percent changed from 30 to 40; and inside `distribute_power`
the same failing call is made and the overall return is still 0. -/
theorem set_power_failure_still_stores_counterexample :
    (heater_manager_set_power
      [{ id := "H", power_percent := 30, max_power_watts := 50,
         status := HeaterStatus.error, htype := HeaterType.highPower,
         regulator_present := true }] "H" 40).2 = -4 ∧
    hm_find (heater_manager_distribute_power
      [{ id := "H", power_percent := 30, max_power_watts := 50,
         status := HeaterStatus.error, htype := HeaterType.highPower,
         regulator_present := true }] ["H"] 20).1 "H" =
      some { id := "H", power_percent := 40, max_power_watts := 50,
             status := HeaterStatus.error, htype := HeaterType.highPower,
             regulator_present := true } ∧
    (heater_manager_distribute_power
      [{ id := "H", power_percent := 30, max_power_watts := 50,
         status := HeaterStatus.error, htype := HeaterType.highPower,
         regulator_present := true }] ["H"] 20).2 = 0 ∧
    (40 : ℚ) ≠ 30 := by
  refine ⟨?_, ?_, ?_, by norm_num⟩ <;>
    (simp [heater_manager_distribute_power, dp_capacity, dp_apply, hm_find,
      heater_manager_set_power, hm_set_power_go] <;> norm_num)

/-! ## Claim C9 -/

/-- C9: `heater_manager_emergency_stop` zeroes every configured heater's
commanded percent — disabled ones included — and always returns success,
while `heater_manager_set_power` on a disabled heater fails with the
Disabled code `-3` and changes nothing. -/
theorem emergency_stop_zeroes_every_heater (hs : List HeaterEntry) :
    (∀ e ∈ (heater_manager_emergency_stop hs).1, e.power_percent = 0) ∧
    (heater_manager_emergency_stop hs).2 = 0 ∧
    (∀ id p e, hm_find hs id = some e → e.enabled = false →
      heater_manager_set_power hs id p = (hs, -3)) := by
  refine ⟨?_, rfl, ?_⟩
  · intro e he
    simp only [heater_manager_emergency_stop, List.mem_map] at he
    obtain ⟨a, -, rfl⟩ := he
    rfl
  · intro id p e hfind hen
    unfold heater_manager_set_power
    exact hm_set_power_go_disabled hs id _ e hfind hen

/-- Witness for C9: a two-heater table with one disabled heater holding a
stale nonzero command. -/
theorem emergency_stop_zeroes_every_heater_witness :
    (∀ e ∈ (heater_manager_emergency_stop
        [{ id := "heater-1", power_percent := 40, max_power_watts := 50 },
         { id := "heater-2", power_percent := 25, max_power_watts := 10,
           enabled := false }]).1, e.power_percent = 0) ∧
    (heater_manager_emergency_stop
        [{ id := "heater-1", power_percent := 40, max_power_watts := 50 },
         { id := "heater-2", power_percent := 25, max_power_watts := 10,
           enabled := false }]).2 = 0 ∧
    heater_manager_set_power
        [{ id := "heater-1", power_percent := 40, max_power_watts := 50 },
         { id := "heater-2", power_percent := 25, max_power_watts := 10,
           enabled := false }] "heater-2" 80 =
      ([{ id := "heater-1", power_percent := 40, max_power_watts := 50 },
        { id := "heater-2", power_percent := 25, max_power_watts := 10,
          enabled := false }], -3) := by
  have t := emergency_stop_zeroes_every_heater
    [{ id := "heater-1", power_percent := 40, max_power_watts := 50 },
     { id := "heater-2", power_percent := 25, max_power_watts := 10,
       enabled := false }]
  exact ⟨t.1, t.2.1, t.2.2 "heater-2" 80
    { id := "heater-2", power_percent := 25, max_power_watts := 10, enabled := false }
    (by simp [hm_find]) rfl⟩

/-! ## Claim C1 -/

/-- Fixture for C1: one enabled, non-suspended loop with alarm band
[280 K, 350 K], own setpoint 300 K, pure P control (kp = 1) limited to
[0, 50] W, driving the single 50 W heater "h1"; its `error_condition`
in the configuration is STOP (the runtime state of control_loop.c does
not even retain that field). -/
def alarmEngineFixture : EngineState :=
  { loops := [{ id := "loop-1"
                pid := { kp := 1, output_min := 0, output_max := 50,
                         integral_min := 0, integral_max := 50 }
                sensor_ids := ["s1"]
                heater_ids := ["h1"]
                target_temp_kelvin := 300
                current_setpoint := 300
                alarm_min_temp := 280
                alarm_max_temp := 350
                power_limit_min := 0
                power_limit_max := 50
                follows_scalar := 1
                enabled := true }]
    heaters := [{ id := "h1", max_power_watts := 50 }] }

/-- Fixture for C1: the loop's sensor reads a valid 270 K — below
`alarm_min_temp`, an alarm condition. -/
def alarmCacheFixture : List SensorSlot :=
  [{ id := "s1", temperature_kelvin := 270, valid := true }]

/-- C1: evaluation of `control_loop_update_all` at an alarm tick.  The
measured average 270 K is outside [280, 350], the alarm is counted
(return −1) and `LOOP_STATUS_ALARM` is assigned mid-body — but the body
ends with the unconditional `status = LOOP_STATUS_OK`, so after the call
the loop's status is OK, no loop is suspended, and the heater is driven
to the PID output (60% of its maximum), not to 0%: none of the claimed
end-of-call effects (persistent ALARM status, heaters at 0%, loops
suspended under the STOP policy) occurs. -/
theorem update_all_alarm_status_overwritten :
    (control_loop_update_all alarmEngineFixture alarmCacheFixture 1).1.loops.map
        (fun l => (l.status, l.suspended)) = [(LoopStatus.ok, false)] ∧
    (control_loop_update_all alarmEngineFixture alarmCacheFixture 1).1.heaters.map
        (fun e => e.power_percent) = [60] ∧
    (control_loop_update_all alarmEngineFixture alarmCacheFixture 1).2 = -1 ∧
    (60 : ℚ) ≠ 0 ∧ LoopStatus.ok ≠ LoopStatus.alarm := by
  refine ⟨?_, ?_, ?_, by norm_num, by decide⟩
  · simp [alarmEngineFixture, alarmCacheFixture, control_loop_update_all,
      control_loop_update_all_core, update_one, List.range_succ, List.range_zero,
      List.getD_cons_zero, sensor_manager_get_average, sm_avg_fold, sm_find,
      cl_find, coo_pid_update, heater_manager_distribute_power, dp_capacity,
      dp_apply, heater_manager_set_power, hm_set_power_go, hm_find] <;> norm_num
  · simp [alarmEngineFixture, alarmCacheFixture, control_loop_update_all,
      control_loop_update_all_core, update_one, List.range_succ, List.range_zero,
      List.getD_cons_zero, sensor_manager_get_average, sm_avg_fold, sm_find,
      cl_find, coo_pid_update, heater_manager_distribute_power, dp_capacity,
      dp_apply, heater_manager_set_power, hm_set_power_go, hm_find] <;> norm_num
    simp [dp_apply, hm_find, heater_manager_set_power, hm_set_power_go] <;> norm_num
  · simp [alarmEngineFixture, alarmCacheFixture, control_loop_update_all,
      control_loop_update_all_core, update_one, List.range_succ, List.range_zero,
      List.getD_cons_zero, sensor_manager_get_average, sm_avg_fold, sm_find,
      cl_find, coo_pid_update, heater_manager_distribute_power, dp_capacity,
      dp_apply, heater_manager_set_power, hm_set_power_go, hm_find] <;> norm_num

/-! ## Claim C2 -/

/-- Fixture for C2: the configuration of a single PID loop with default
target 300 K, no follow relation, gains (1, 0, 0), power limits
[0, 100] W, one sensor "s1" and one 50 W heater "h1". -/
def setTargetLoopConfig : ThermalConfig :=
  { sensors := [{ id := "s1" }]
    heaters := [{ id := "h1", max_power_w := 50 }]
    control_loops := [{ id := "loop-1"
                        sensor_ids := ["s1"]
                        heater_ids := ["h1"]
                        default_target_temperature := 300
                        p_gain := 1
                        alarm_min_temp := 0
                        alarm_max_temp := 1000
                        heater_power_limit_min := 0
                        heater_power_limit_max := 100 }] }

/-- Fixture for C2: the loop's sensor reads a valid 290 K. -/
def setTargetCacheFixture : List SensorSlot :=
  [{ id := "s1", temperature_kelvin := 290, valid := true }]

/-- C2: evaluation of init → `set_target(…, 310)` → `update_all`.
`set_target` stores 310 in `target_temp_kelvin`, but `update_all` takes
the PID setpoint from `current_setpoint`, which still holds the
configured default 300 (the TODO ramping that would move it toward the
target is absent), so the PID runs with setpoint 300: the resulting error
is 10 K and the heater is driven to 20% (10 W of 50 W), where a setpoint
of 310 would command 40%.  The setpoint passed to the PID does not equal
the value most recently written by `set_target`. -/
theorem update_all_ignores_set_target :
    (control_loop_init setTargetLoopConfig).map (fun loops0 =>
      let loops1 := (control_loop_set_target loops0 "loop-1" 310).1
      let r := control_loop_update_all
        { loops := loops1,
          heaters := [{ id := "h1", max_power_watts := 50 }] }
        setTargetCacheFixture 1
      (loops1.map (fun l => l.target_temp_kelvin),
       r.1.loops.map (fun l => (l.target_temp_kelvin, l.current_setpoint)),
       r.1.heaters.map (fun e => e.power_percent))) =
      Except.ok ([310], [(310, 300)], [20]) ∧
    (300 : ℚ) ≠ 310 ∧ (20 : ℚ) ≠ 40 := by
  refine ⟨?_, by norm_num, by norm_num⟩
  simp [setTargetLoopConfig, setTargetCacheFixture, control_loop_init,
    coo_pid_init, control_loop_set_target, control_loop_update_all,
    control_loop_update_all_core, update_one, List.range_succ, List.range_zero,
    List.getD_cons_zero, sensor_manager_get_average, sm_avg_fold, sm_find,
    cl_find, coo_pid_update, heater_manager_distribute_power, dp_capacity,
    dp_apply, heater_manager_set_power, hm_set_power_go, hm_find,
    Except.map, MAX_CONTROL_LOOPS] <;> norm_num
  simp [dp_apply, hm_find, heater_manager_set_power, hm_set_power_go] <;> norm_num

/-! ## Claim C7 -/

/-- C7: for every PID state whose configured intervals are
non-degenerate, `coo_pid_update` computes exactly the reference
definition (error = setpoint − measured; integral accumulated then
clamped to [integral_min, integral_max]; derivative (error −
prev_error)/dt for dt > 0 and 0 for dt ≤ 0; output = kp·error +
ki·integral + kd·derivative clamped to [output_min, output_max];
prev_error ← error), and consequently after this update — and after any
further sequence of updates — the stored integral never leaves
[integral_min, integral_max]. -/
theorem coo_pid_update_matches_reference (p : CooPid) (sp m dt : ℚ)
    (hI : p.integral_min ≤ p.integral_max)
    (hO : p.output_min ≤ p.output_max) :
    coo_pid_update p sp m dt = pid_update_spec p sp m dt ∧
    p.integral_min ≤ (coo_pid_update p sp m dt).2.integral ∧
    (coo_pid_update p sp m dt).2.integral ≤ p.integral_max ∧
    ∀ updates : List (ℚ × ℚ × ℚ),
      p.integral_min ≤ (pid_run (coo_pid_update p sp m dt).2 updates).integral ∧
      (pid_run (coo_pid_update p sp m dt).2 updates).integral ≤ p.integral_max := by
  have hmem := coo_pid_update_integral_mem p sp m dt hI
  refine ⟨?_, hmem.1, hmem.2, ?_⟩
  · simp only [coo_pid_update, pid_update_spec]
    rw [ifClamp_eq_clampSpec _ _ _ hI, ifClamp_eq_clampSpec _ _ _ hO]
  · intro updates
    have hmin := coo_pid_update_integral_min p sp m dt
    have hmax := coo_pid_update_integral_max p sp m dt
    have := pid_run_integral_mem updates ((coo_pid_update p sp m dt).2)
      (by rw [hmin, hmax]; exact hI) (by rw [hmin, hmax]; exact hmem)
    rw [hmin, hmax] at this
    exact ⟨this.2.2.1, this.2.2.2⟩

/-- Witness for C7 at a freshly initialized controller with gains 1,1,1
and output limits [0, 50]. -/
theorem coo_pid_update_matches_reference_witness :
    (coo_pid_init 1 1 1 0 50).integral_min ≤ (coo_pid_init 1 1 1 0 50).integral_max ∧
    (coo_pid_init 1 1 1 0 50).output_min ≤ (coo_pid_init 1 1 1 0 50).output_max ∧
    (coo_pid_update (coo_pid_init 1 1 1 0 50) 300 290 1 =
        pid_update_spec (coo_pid_init 1 1 1 0 50) 300 290 1 ∧
      (coo_pid_init 1 1 1 0 50).integral_min ≤
        (coo_pid_update (coo_pid_init 1 1 1 0 50) 300 290 1).2.integral ∧
      (coo_pid_update (coo_pid_init 1 1 1 0 50) 300 290 1).2.integral ≤
        (coo_pid_init 1 1 1 0 50).integral_max ∧
      ∀ updates : List (ℚ × ℚ × ℚ),
        (coo_pid_init 1 1 1 0 50).integral_min ≤
          (pid_run (coo_pid_update (coo_pid_init 1 1 1 0 50) 300 290 1).2 updates).integral ∧
        (pid_run (coo_pid_update (coo_pid_init 1 1 1 0 50) 300 290 1).2 updates).integral ≤
          (coo_pid_init 1 1 1 0 50).integral_max) :=
  ⟨by norm_num [coo_pid_init], by norm_num [coo_pid_init],
   coo_pid_update_matches_reference (coo_pid_init 1 1 1 0 50) 300 290 1
     (by norm_num [coo_pid_init]) (by norm_num [coo_pid_init])⟩

end MTC
